import Mathlib

set_option linter.unusedVariables false

/-!
Shallow embedding of the container abuse-detection scanner (src/main.py) and
proofs about its strategy-evaluation engine, the per-check evaluators, the
message templating, the strategy loader and the sweep coordinator.

Modelling conventions:
* Python/JSON values (strategy files, check configurations, Docker stats
  payloads, the flagged-state store) are modelled by `JValue`.
* Python exceptions are modelled by `Except String`; a `try/except` block in
  the source becomes an explicit `match` that maps `.error` to the fallback.
* External collaborators (the filesystem of a volume, glob, the JSON parser,
  a live Docker container handle, the management API) are oracles: structures
  of functions that each concrete scenario instantiates.
* The outward-facing actions of one sweep (suspend requests, webhook
  notifications, state marking) are recorded as an `Event` trace.
-/

/-- Exact numbers as Python holds them here (JSON integers and floats, byte
counters, CPU percentages): a fraction with integer numerator and positive
natural denominator.  All operations are structural, so concrete scenarios
evaluate inside the kernel; Frac.toRat maps a value to the rational it
denotes and the comparison is proved to agree with the order on ℚ. -/
structure Frac where
  num : ℤ
  den : ℕ
  wf : 0 < den

/-- The fraction denoting an integer. -/
def Frac.ofInt (n : ℤ) : Frac := ⟨n, 1, Nat.one_pos⟩

/-- The fraction denoting a natural number. -/
def Frac.ofNat (n : ℕ) : Frac := ⟨(n : ℤ), 1, Nat.one_pos⟩

/-- Addition of fractions (no normalisation). -/
def Frac.add (a b : Frac) : Frac :=
  ⟨a.num * b.den + b.num * a.den, a.den * b.den, Nat.mul_pos a.wf b.wf⟩

/-- Multiplication of fractions. -/
def Frac.mul (a b : Frac) : Frac :=
  ⟨a.num * b.num, a.den * b.den, Nat.mul_pos a.wf b.wf⟩

/-- Division of fractions.  Division by an exact zero — which the scanner
never performs, its divisors being the literals 1024 and powers of ten —
yields zero rather than Python's ZeroDivisionError. -/
def Frac.div (a b : Frac) : Frac :=
  if h : b.num = 0 then Frac.ofInt 0
  else ⟨a.num * b.den * (if b.num < 0 then -1 else 1), a.den * b.num.natAbs,
        Nat.mul_pos a.wf (Int.natAbs_pos.mpr h)⟩

/-- Strict comparison of the denoted values, by cross multiplication. -/
def fracLt (a b : Frac) : Bool :=
  decide (a.num * (b.den : ℤ) < b.num * (a.den : ℤ))

/-- The rational number a fraction denotes. -/
def Frac.toRat (a : Frac) : ℚ := (a.num : ℚ) / (a.den : ℚ)

/-- fracLt is exactly the strict order of the denoted rationals, so every
"strictly exceeds" below means real numeric excess. -/
theorem fracLt_toRat (a b : Frac) : fracLt a b = true ↔ a.toRat < b.toRat := by
  unfold fracLt Frac.toRat
  rw [decide_eq_true_iff]
  rw [div_lt_div_iff₀ (by exact_mod_cast a.wf) (by exact_mod_cast b.wf)]
  constructor
  · intro h; exact_mod_cast h
  · intro h; exact_mod_cast h

/-- JSON values as produced by Python's json module: the data model for
strategy rule files, check configurations, package manifests, Docker stats
payloads and the flagged-state store. -/
inductive JValue where
  | null : JValue
  | bool : Bool → JValue
  | num : Frac → JValue
  | str : String → JValue
  | arr : List JValue → JValue
  | obj : List (String × JValue) → JValue

/-- First-occurrence lookup in an association list: the model of Python dict
lookup (json.load yields one entry per key, insertion ordered). -/
def lookupField {α : Type} : List (String × α) → String → Option α
  | [], _ => none
  | (k, v) :: rest, key => if k = key then some v else lookupField rest key

/-- Python truthiness of a JSON value: None, False, 0, empty string, empty
list and empty dict are falsy, everything else truthy. -/
def jTruthy : JValue → Bool
  | .null => false
  | .bool b => b
  | .num q => if q.num = 0 then false else true
  | .str s => if s = "" then false else true
  | .arr l => !l.isEmpty
  | .obj l => !l.isEmpty

/-- Model of Python isinstance(v, dict). -/
def isObjB : JValue → Bool
  | .obj _ => true
  | _ => false

/-- Model of Python isinstance(v, list). -/
def isArrB : JValue → Bool
  | .arr _ => true
  | _ => false

/-- Equality of a JSON value with a string literal, as used by the check
dispatcher's comparisons against the closed set of check kinds. -/
def isStrEq (v : JValue) (s : String) : Bool :=
  match v with
  | .str t => t = s
  | _ => false

/-- Model of Python d.get(k, default): returns the stored value or the
default on a dict, raises (AttributeError) on any non-dict value. -/
def pyGetD (v : JValue) (k : String) (d : JValue) : Except String JValue :=
  match v with
  | .obj fields => .ok ((lookupField fields k).getD d)
  | _ => .error "AttributeError: get"

/-- Model of Python d[k]: returns the stored value on a dict, raises
KeyError when the key is absent and TypeError on a non-dict value. -/
def pyGetItem (v : JValue) (k : String) : Except String JValue :=
  match v with
  | .obj fields =>
    match lookupField fields k with
    | some x => .ok x
    | none => .error "KeyError"
  | _ => .error "TypeError: not subscriptable"

/-- Total d.get(k, default) for places where the receiver is already known
to be a dict (guarded by isinstance in the source). -/
def objGetD (v : JValue) (k : String) (d : JValue) : JValue :=
  match v with
  | .obj fields => (lookupField fields k).getD d
  | _ => d

/-- A value used where Python requires a str (os.path.join argument,
substring test, .lower()): non-strings raise TypeError. -/
def asStr : JValue → Except String String
  | .str s => .ok s
  | _ => .error "TypeError: expected str"

/-- A value used where Python requires a dict (dict.update, dict.values):
non-dicts raise. -/
def asObj : JValue → Except String (List (String × JValue))
  | .obj fields => .ok fields
  | _ => .error "TypeError: expected dict"

/-- A value used in Python numeric comparison or addition: JSON numbers and
booleans (which are ints in Python) are numeric, everything else raises
TypeError. -/
def pyNum : JValue → Except String Frac
  | .num q => .ok q
  | .bool b => .ok (Frac.ofInt (if b then 1 else 0))
  | _ => .error "TypeError: expected number"

/-- Model of Python iteration over a JSON value (for x in v): lists yield
their elements, strings their characters, dicts their keys; other values
raise TypeError. -/
def pyIter : JValue → Except String (List JValue)
  | .arr l => .ok l
  | .str s => .ok (s.toList.map (fun c => .str (String.singleton c)))
  | .obj fields => .ok (fields.map (fun kv => .str kv.1))
  | _ => .error "TypeError: not iterable"

/-- ASCII whitespace recognised by Python str.strip() and str.split(). -/
def isPySpace (c : Char) : Bool :=
  c = ' ' || c = '\t' || c = '\n' || c = '\r' || c = '\x0b' || c = '\x0c'

/-- Model of Python str.strip(): drop whitespace at both ends. -/
def pyStrip (s : String) : String :=
  String.mk (((s.toList.dropWhile isPySpace).reverse.dropWhile isPySpace).reverse)

/-- Accumulator loop of pyWhitespaceSplit. -/
def wsSplitAux (acc : List Char) : List Char → List String
  | [] => if acc.isEmpty then [] else [String.mk acc.reverse]
  | c :: rest =>
    if isPySpace c then
      if acc.isEmpty then wsSplitAux [] rest
      else String.mk acc.reverse :: wsSplitAux [] rest
    else wsSplitAux (c :: acc) rest

/-- Model of Python str.split() with no separator: split on runs of
whitespace, discarding empty pieces. -/
def pyWhitespaceSplit (s : String) : List String :=
  wsSplitAux [] s.toList

/-- Accumulator loop of splitChar. -/
def splitCharAux (sep : Char) (acc : List Char) : List Char → List String
  | [] => [String.mk acc.reverse]
  | c :: rest =>
    if c = sep then String.mk acc.reverse :: splitCharAux sep [] rest
    else splitCharAux sep (c :: acc) rest

/-- Model of Python str.split(sep) for a one-character separator (the
source only splits on a newline): empty pieces are kept. -/
def splitChar (sep : Char) (s : String) : List String :=
  splitCharAux sep [] s.toList

/-- ASCII lower-casing of a string, the model of Python str.lower() on the
scanner's inputs. -/
def lowerStr (s : String) : String :=
  String.mk (s.toList.map Char.toLower)

/-- Python ", ".join(items). -/
def joinWith (sep : String) : List String → String
  | [] => ""
  | [x] => x
  | x :: y :: rest => x ++ sep ++ joinWith sep (y :: rest)

/-- Whether the first list is an initial segment of the second. -/
def isPrefixList : List Char → List Char → Bool
  | [], _ => true
  | _ :: _, [] => false
  | a :: as, b :: bs => a = b && isPrefixList as bs

/-- Whether needle occurs contiguously inside the haystack list. -/
def infixAux (needle : List Char) : List Char → Bool
  | [] => isPrefixList needle []
  | c :: rest => isPrefixList needle (c :: rest) || infixAux needle rest

/-- Model of Python's substring test (needle in hay). -/
def strContains (hay needle : String) : Bool :=
  infixAux needle.toList hay.toList

/-- Case-insensitive substring test, the model of
needle.lower() in hay.lower(). -/
def lowerContains (hay needle : String) : Bool :=
  strContains (lowerStr hay) (lowerStr needle)

/-- Model of os.path.basename: the part after the final slash. -/
def basename (p : String) : String :=
  (splitChar '/' p).getLastD ""

/-- Whether a path string begins with a slash. -/
def startsWithSlash (s : String) : Bool :=
  match s.toList with
  | c :: _ => c = '/'
  | [] => false

/-- Whether a path string ends with a slash. -/
def endsWithSlash (s : String) : Bool :=
  match s.toList.getLast? with
  | some c => c = '/'
  | none => false

/-- Model of os.path.join for two components: an absolute second component
replaces the first, otherwise a single slash separates them. -/
def pyJoin (a b : String) : String :=
  if startsWithSlash b then b
  else if a = "" || endsWithSlash a then a ++ b
  else a ++ "/" ++ b

/-- Numeric value of a list of decimal digit characters. -/
def digitsVal (l : List Char) : Nat :=
  l.foldl (fun a c => a * 10 + (c.toNat - 48)) 0

/-- Model of Python float(s) on a whitespace-free token: optional sign,
decimal digits with an optional fractional part and an optional exponent.
Returns none exactly when Python raises ValueError.  (The special spellings
inf/nan and digit underscores accepted by Python are not modelled; the
scanner's inputs are tabular CPU percentages.) -/
def pyFloat (s : String) : Option Frac :=
  let l := s.toList
  let sgnRest : ℤ × List Char :=
    match l with
    | '+' :: r => (1, r)
    | '-' :: r => (-1, r)
    | r => (1, r)
  let sgn := sgnRest.1
  let l1 := sgnRest.2
  let ip := l1.takeWhile Char.isDigit
  let l2 := l1.dropWhile Char.isDigit
  let fpRest : List Char × List Char :=
    match l2 with
    | '.' :: r => (r.takeWhile Char.isDigit, r.dropWhile Char.isDigit)
    | r => ([], r)
  let fp := fpRest.1
  let l3 := fpRest.2
  if ip.isEmpty && fp.isEmpty then none
  else
    let mant : Frac := ⟨sgn * (digitsVal ip * 10 ^ fp.length + digitsVal fp : ℕ), 10 ^ fp.length,
                        Nat.pos_pow_of_pos _ (by omega)⟩
    match l3 with
    | [] => some mant
    | e :: r =>
      if e = 'e' || e = 'E' then
        match r with
        | '+' :: rr =>
          let ed := rr.takeWhile Char.isDigit
          if ed.isEmpty || !(rr.dropWhile Char.isDigit).isEmpty then none
          else some (mant.mul (Frac.ofNat (10 ^ digitsVal ed)))
        | '-' :: rr =>
          let ed := rr.takeWhile Char.isDigit
          if ed.isEmpty || !(rr.dropWhile Char.isDigit).isEmpty then none
          else some (mant.div (Frac.ofNat (10 ^ digitsVal ed)))
        | rr =>
          let ed := rr.takeWhile Char.isDigit
          if ed.isEmpty || !(rr.dropWhile Char.isDigit).isEmpty then none
          else some (mant.mul (Frac.ofNat (10 ^ digitsVal ed)))
      else none

/-- Round the denoted value to the nearest integer, ties to even: the
rounding of Python's fixed-point string formatting. -/
def roundHalfEven (q : Frac) : ℤ :=
  let z := q.num.fdiv q.den
  let r2 := 2 * (q.num - z * q.den)
  if r2 > (q.den : ℤ) then z + 1
  else if r2 < (q.den : ℤ) then z
  else if z % 2 = 0 then z else z + 1

/-- Decimal digits of a natural number (fuel-based so it reduces in the
kernel; the fuel n + 1 always suffices). -/
def natDigits : ℕ → ℕ → List Char
  | 0, _ => []
  | fuel + 1, n =>
    if n < 10 then [Char.ofNat (48 + n)]
    else natDigits fuel (n / 10) ++ [Char.ofNat (48 + n % 10)]

/-- toString for naturals over natDigits. -/
def natStr (n : ℕ) : String :=
  String.mk (natDigits (n + 1) n)

/-- Model of the Python format spec .2f: fixed point with exactly two
decimal places.  (The source computes bytes / 1024 / 1024 in double
precision before formatting; this model keeps the exact value, which
agrees on every byte count this program can meet.) -/
def format2f (q : Frac) : String :=
  let z := roundHalfEven (q.mul (Frac.ofNat 100))
  let a := z.natAbs
  let frac := a % 100
  (if z < 0 then "-" else "") ++ natStr (a / 100) ++ "."
    ++ (if frac < 10 then "0" else "") ++ natStr frac

/-- Evidence produced by a matching evaluator: the optional structured
fields that the evaluators return as small dicts. -/
structure Evidence where
  pattern : Option String
  filename : Option String
  dependency : Option String
  usage : Option Frac
  processes : Option (List String)

/-- The keyword arguments handed to str.format by replace_placeholders
(main.py lines 208-214): every placeholder name paired with its rendered
string, with the source's defaults for absent Evidence fields. -/
def evMapList (d : Evidence) : List (String × String) :=
  [("pattern", d.pattern.getD ""),
   ("filename", d.filename.getD ""),
   ("dependency", d.dependency.getD ""),
   ("usage", format2f (((d.usage.getD (Frac.ofInt 0)).div (Frac.ofNat 1024)).div (Frac.ofNat 1024))),
   ("processes", joinWith ", " (d.processes.getD []))]

/-- One piece of a parsed format template: a literal character or a named
replacement field. -/
inductive Item where
  | lit : Char → Item
  | field : String → Item

/-- The opening curly brace character. -/
def lbrace : Char := Char.ofNat 123

/-- The closing curly brace character. -/
def rbrace : Char := Char.ofNat 125

/-- Read a replacement-field name up to the closing brace; none when the
template ends first (Python: ValueError, expected closing brace). -/
def readField : List Char → Option (List Char × List Char)
  | [] => none
  | c :: rest =>
    if c = rbrace then some ([], rest)
    else
      match readField rest with
      | some pr => some (c :: pr.1, pr.2)
      | none => none

theorem readField_length : ∀ (l n r : List Char), readField l = some (n, r) → r.length < l.length := by
  intro l
  induction l with
  | nil => intro n r h; simp [readField] at h
  | cons c rest ih =>
    intro n r h
    rw [readField] at h
    by_cases hc : c = rbrace
    · rw [if_pos hc] at h
      simp only [Option.some.injEq, Prod.mk.injEq] at h
      rw [← h.2]
      simp only [List.length_cons]
      omega
    · rw [if_neg hc] at h
      cases hr : readField rest with
      | none => rw [hr] at h; exact absurd h (by simp)
      | some pr =>
        rw [hr] at h
        simp only [Option.some.injEq, Prod.mk.injEq] at h
        have hlt := ih pr.1 pr.2 (by rw [hr])
        rw [← h.2]
        simp only [List.length_cons]
        omega

/-- Prepend a literal character to a parse result. -/
def consLit (c : Char) : Except String (List Item) → Except String (List Item)
  | .ok items => .ok (.lit c :: items)
  | .error e => .error e

/-- Prepend a replacement field to a parse result. -/
def consField (n : String) : Except String (List Item) → Except String (List Item)
  | .ok items => .ok (.field n :: items)
  | .error e => .error e

/-- Parse a str.format template into literal characters and replacement
fields: doubled braces are literals, a single closing brace alone is an
error, an opening brace starts a field read up to the closing brace.
Recursion is on a fuel argument for kernel computability; each step
consumes at least one character, so the fuel length + 1 that parseFmt
passes never runs out.  (Conversion specifiers, format specs, indexing and
attribute access inside a field are not modelled: the scanner's templates
use bare names, and the theorems about rendering restrict to those.) -/
def parseFmtAux : ℕ → List Char → Except String (List Item)
  | 0, _ => .error "internal: fuel exhausted"
  | _ + 1, [] => .ok []
  | fuel + 1, c :: rest =>
    if c = lbrace then
      match rest with
      | [] => .error "ValueError: single opening brace"
      | c2 :: rest2 =>
        if c2 = lbrace then consLit lbrace (parseFmtAux fuel rest2)
        else
          match readField (c2 :: rest2) with
          | some pr => consField (String.mk pr.1) (parseFmtAux fuel pr.2)
          | none => .error "ValueError: expected closing brace"
    else if c = rbrace then
      match rest with
      | [] => .error "ValueError: single closing brace"
      | c2 :: rest2 =>
        if c2 = rbrace then consLit rbrace (parseFmtAux fuel rest2)
        else .error "ValueError: single closing brace"
    else consLit c (parseFmtAux fuel rest)

/-- Parse a template with always-sufficient fuel. -/
def parseFmt (l : List Char) : Except String (List Item) :=
  parseFmtAux (l.length + 1) l

/-- Prepend a rendered piece to a render result. -/
def consStr (s : String) : Except String String → Except String String
  | .ok t => .ok (s ++ t)
  | .error e => .error e

/-- Substitute each replacement field from the keyword map, raising KeyError
for a field name the map does not carry — Python str.format semantics over
the parsed template. -/
def renderItems (m : List (String × String)) : List Item → Except String String
  | [] => .ok ""
  | .lit c :: rest => consStr (String.singleton c) (renderItems m rest)
  | .field n :: rest =>
    match lookupField m n with
    | some v => consStr v (renderItems m rest)
    | none => .error "KeyError"

/-- Model of replace_placeholders (main.py lines 207-214): render the
message template by substituting the five placeholder names, with empty
string / zero defaults for absent Evidence fields; usage is pre-formatted
as megabytes with two decimals, processes joined with a comma. -/
def replace_placeholders (template : String) (data : Evidence) : Except String String :=
  match parseFmt template.toList with
  | .ok items => renderItems (evMapList data) items
  | .error e => .error e

/-- The default message template of a check (main.py line 179). -/
def checkMessage (cc : JValue) : JValue :=
  objGetD cc "message" (.str "An undefined issue was detected")

/-- Outcome of opening and reading one filesystem entry under a volume:
reading text can raise (directory, permission, and for the plain variant a
decode failure), while the errors-ignored variant used by the content check
cannot fail on decoding. -/
structure FSEntry where
  readText : Except String String
  readTextIgnore : Except String String
  size : Nat

/-- Filesystem-side collaborators of the scanner: the volume tree
(os.path.exists / open / os.path.getsize), glob.glob, and the json module's
parser. -/
structure FS where
  entries : String → Option FSEntry
  globMatches : String → List String
  jparse : String → Except String JValue

/-- A live Docker container handle: last-1000-line logs, command execution
output, and the point-in-time stats payload.  Each call can raise. -/
structure Container where
  logs : Except String String
  execRun : String → Except String String
  stats : Except String JValue

/-- Model of file_existence_check (main.py lines 234-241): the first pattern
whose glob under the target path matches yields Evidence with the base name
of the first match; joining a non-string pattern raises. -/
def existLoop (fs : FS) (target_path : String) : List JValue → Except String (Option Evidence)
  | [] => .ok none
  | p :: rest =>
    match asStr p with
    | .error e => .error e
    | .ok ps =>
      match fs.globMatches (pyJoin target_path ps) with
      | [] => existLoop fs target_path rest
      | m :: _ => .ok (some ⟨none, some (basename m), none, none, none⟩)

/-- Model of file_existence_check entry point: fetch patterns (default
empty) and walk them in order. -/
def file_existence_check (fs : FS) (target_path : String) (cc : JValue) : Except String (Option Evidence) :=
  match pyGetD cc "patterns" (.arr []) with
  | .error e => .error e
  | .ok patterns =>
    match pyIter patterns with
    | .error e => .error e
    | .ok pats => existLoop fs target_path pats

/-- Inner loop of file_content_check: first pattern occurring as a literal
substring of the decoded content; a non-string pattern raises. -/
def contentLoop (content : String) : List JValue → Except String (Option Evidence)
  | [] => .ok none
  | p :: rest =>
    match asStr p with
    | .error e => .error e
    | .ok ps =>
      if strContains content ps then .ok (some ⟨some ps, none, none, none, none⟩)
      else contentLoop content rest

/-- Model of file_content_check (main.py lines 244-252): a missing file is
no match; the file is read ignoring decode errors (open itself can still
raise, which propagates — this evaluator has no try block). -/
def file_content_check (fs : FS) (target_path : String) (cc : JValue) : Except String (Option Evidence) :=
  match pyGetD cc "patterns" (.arr []) with
  | .error e => .error e
  | .ok patterns =>
    match fs.entries target_path with
    | none => .ok none
    | some entry =>
      match entry.readTextIgnore with
      | .error e => .error e
      | .ok content =>
        match pyIter patterns with
        | .error e => .error e
        | .ok pats => contentLoop content pats

/-- Model of file_size_check (main.py lines 255-261): an existing path whose
byte size strictly exceeds max_size (default 0) matches with the base name
of the path; comparing against a non-numeric max_size raises. -/
def file_size_check (fs : FS) (target_path : String) (cc : JValue) : Except String (Option Evidence) :=
  match pyGetD cc "max_size" (.num (Frac.ofInt 0)) with
  | .error e => .error e
  | .ok max_size =>
    match fs.entries target_path with
    | none => .ok none
    | some entry =>
      match pyNum max_size with
      | .error e => .error e
      | .ok m =>
        if fracLt m (Frac.ofNat entry.size) then
          .ok (some ⟨none, some (basename target_path), none, none, none⟩)
        else .ok none

/-- Model of file_check (main.py lines 217-231): reject a falsy path,
resolve the target under the volume root, and dispatch to the three
file-based evaluators; an unexpected type raises ValueError. -/
def file_check (fs : FS) (volume_path : String) (cc : JValue) : Except String (Option Evidence) :=
  match pyGetD cc "path" .null with
  | .error e => .error e
  | .ok p =>
    if jTruthy p = false then .ok none
    else
      match asStr p with
      | .error e => .error e
      | .ok ps =>
        let target_path := pyJoin volume_path ps
        match pyGetItem cc "type" with
        | .error e => .error e
        | .ok ty =>
          if isStrEq ty "file_existence" then file_existence_check fs target_path cc
          else if isStrEq ty "file_content" then file_content_check fs target_path cc
          else if isStrEq ty "file_size" then file_size_check fs target_path cc
          else .error "ValueError: invalid file check type"

/-- Python dict.update on insertion-ordered association lists: keys of the
first operand keep their position (with the second operand's value where it
collides), new keys of the second operand are appended. -/
def pyUpdate (a b : List (String × JValue)) : List (String × JValue) :=
  a.map (fun kv => match lookupField b kv.1 with
                   | some v => (kv.1, v)
                   | none => kv)
    ++ b.filter (fun kv => (lookupField a kv.1).isNone)

/-- Inner loops of dependency_check: for each pattern in order, the first
dependency name containing it case-insensitively yields the Evidence; a
non-string pattern raises (caught by the evaluator's try). -/
def firstMatch : List JValue → List (String × JValue) → Except String (Option Evidence)
  | [], _ => .ok none
  | p :: rest, merged =>
    match asStr p with
    | .error e => .error e
    | .ok ps =>
      match merged.find? (fun kv => lowerContains kv.1 ps) with
      | some kv => .ok (some ⟨none, none, some kv.1, none, none⟩)
      | none => firstMatch rest merged

/-- Body of dependency_check's try block (main.py lines 269-277): read the
manifest, parse it as JSON, merge dependencies with devDependencies, and
scan for a case-insensitive substring match. -/
def depTry (fs : FS) (entry : FSEntry) (patterns : JValue) : Except String (Option Evidence) :=
  match entry.readText with
  | .error e => .error e
  | .ok content =>
    match fs.jparse content with
    | .error e => .error e
    | .ok package_data =>
      match pyGetD package_data "dependencies" (.obj []) with
      | .error e => .error e
      | .ok deps =>
        match asObj deps with
        | .error e => .error e
        | .ok depsO =>
          match pyGetD package_data "devDependencies" (.obj []) with
          | .error e => .error e
          | .ok dev =>
            match asObj dev with
            | .error e => .error e
            | .ok devO =>
              match pyIter patterns with
              | .error e => .error e
              | .ok pats => firstMatch pats (pyUpdate depsO devO)

/-- Model of dependency_check (main.py lines 264-282): a missing manifest is
no match; any failure inside the try (read, parse, malformed structures,
non-string pattern) is caught and degrades to no match; joining a
non-string file name raises before the try. -/
def dependency_check (fs : FS) (volume_path : String) (cc : JValue) : Except String (Option Evidence) :=
  match pyGetD cc "file" (.str "package.json") with
  | .error e => .error e
  | .ok file_name =>
    match pyGetD cc "patterns" (.arr []) with
    | .error e => .error e
    | .ok patterns =>
      match asStr file_name with
      | .error e => .error e
      | .ok fns =>
        match fs.entries (pyJoin volume_path fns) with
        | none => .ok none
        | some entry =>
          match depTry fs entry patterns with
          | .ok r => .ok r
          | .error _ => .ok none

/-- Inner loop of log_content_check: first pattern contained case-folded in
the case-folded logs. -/
def logLoop (logs : String) : List JValue → Except String (Option Evidence)
  | [] => .ok none
  | p :: rest =>
    match asStr p with
    | .error e => .error e
    | .ok ps =>
      if lowerContains logs ps then .ok (some ⟨some ps, none, none, none, none⟩)
      else logLoop logs rest

/-- Body of log_content_check's try block: fetch and decode the last 1000
log lines, then scan the patterns. -/
def logTry (c : Container) (patterns : JValue) : Except String (Option Evidence) :=
  match c.logs with
  | .error e => .error e
  | .ok logs =>
    match pyIter patterns with
    | .error e => .error e
    | .ok pats => logLoop logs pats

/-- Model of log_content_check (main.py lines 285-294): any failure inside
the try degrades to no match; fetching patterns from a non-dict config
raises before the try. -/
def log_content_check (c : Container) (cc : JValue) : Except String (Option Evidence) :=
  match pyGetD cc "patterns" (.arr []) with
  | .error e => .error e
  | .ok patterns =>
    .ok (match logTry c patterns with
         | .ok r => r
         | .error _ => none)

/-- One line of process output: at least nine whitespace-split columns whose
0-based column 8 parses as a number strictly above the threshold makes the
stripped line a match; a short line or malformed number is skipped. -/
def matchingLine (thr : Frac) (line : String) : Option String :=
  let parts := pyWhitespaceSplit (pyStrip line)
  if parts.length > 8 then
    match pyFloat (parts.getD 8 "") with
    | some cpu => if fracLt thr cpu then some (pyStrip line) else none
    | none => none
  else none

/-- All matching lines of the command output in order (main.py lines
303-312): the output is stripped, split on newlines, and filtered. -/
def highCpuLines (thr : Frac) (output : String) : List String :=
  (splitChar (Char.ofNat 10) (pyStrip output)).filterMap (matchingLine thr)

/-- Body of process_check's try block: run the command (a non-string
command makes exec_run raise), decode the output and collect high-CPU
lines.  The threshold's numeric conversion is hoisted before the loop: in
the source a non-numeric cpu_threshold raises TypeError at the first
comparison, caught by the same try, so the observable result (no match) is
identical. -/
def procTry (c : Container) (cmd cpu_threshold : JValue) : Except String (Option Evidence) :=
  match asStr cmd with
  | .error e => .error e
  | .ok cs =>
    match c.execRun cs with
    | .error e => .error e
    | .ok output =>
      match pyNum cpu_threshold with
      | .error e => .error e
      | .ok thr =>
        let high := highCpuLines thr output
        if high.isEmpty then .ok none
        else .ok (some ⟨none, none, none, none, some high⟩)

/-- Model of process_check (main.py lines 297-317): any failure inside the
try degrades to no match; fetching fields from a non-dict config raises
before the try. -/
def process_check (c : Container) (cc : JValue) : Except String (Option Evidence) :=
  match pyGetD cc "command" .null with
  | .error e => .error e
  | .ok cmd =>
    match pyGetD cc "cpu_threshold" (.num (Frac.ofInt 0)) with
    | .error e => .error e
    | .ok cpu_threshold =>
      .ok (match procTry c cmd cpu_threshold with
           | .ok r => r
           | .error _ => none)

/-- Sum of rx_bytes + tx_bytes over the interfaces of the networks dict
(main.py line 325), with 0 defaults; a non-numeric counter raises (caught
by the evaluator's try). -/
def sumNets (acc : Frac) : List (String × JValue) → Except String Frac
  | [] => .ok acc
  | (_, net) :: rest =>
    match pyGetD net "rx_bytes" (.num (Frac.ofInt 0)) with
    | .error e => .error e
    | .ok rx =>
      match pyNum rx with
      | .error e => .error e
      | .ok rxn =>
        match pyGetD net "tx_bytes" (.num (Frac.ofInt 0)) with
        | .error e => .error e
        | .ok tx =>
          match pyNum tx with
          | .error e => .error e
          | .ok txn => sumNets (acc.add (rxn.add txn)) rest

/-- Body of network_usage_check's try block: fetch the stats payload, sum
the per-interface counters and compare with the threshold.  As with
process_check, the threshold's numeric conversion is hoisted: a TypeError
at the comparison is caught by the same try either way. -/
def netTry (c : Container) (threshold : JValue) : Except String (Option Evidence) :=
  match c.stats with
  | .error e => .error e
  | .ok stats =>
    match pyGetD stats "networks" (.obj []) with
    | .error e => .error e
    | .ok networks =>
      match asObj networks with
      | .error e => .error e
      | .ok nets =>
        match sumNets (Frac.ofInt 0) nets with
        | .error e => .error e
        | .ok total =>
          match pyNum threshold with
          | .error e => .error e
          | .ok thr =>
            if fracLt thr total then .ok (some ⟨none, none, none, some total, none⟩)
            else .ok none

/-- Model of network_usage_check (main.py lines 320-330): matches when the
summed received plus transmitted byte counters strictly exceed threshold
(default 0); any failure inside the try degrades to no match. -/
def network_usage_check (c : Container) (cc : JValue) : Except String (Option Evidence) :=
  match pyGetD cc "threshold" (.num (Frac.ofInt 0)) with
  | .error e => .error e
  | .ok threshold =>
    .ok (match netTry c threshold with
         | .ok r => r
         | .error _ => none)

/-- Body of the executor's per-check try block (main.py lines 180-199):
dispatch on the check's declared type to the matching evaluator (an
unrecognised type contributes nothing), then render the message template
for a match.  Any error here is caught by the executor. -/
def checkTry (fs : FS) (volume_path : String) (c : Container) (cc tmpl : JValue) : Except String (Option String) :=
  match pyGetItem cc "type" with
  | .error e => .error e
  | .ok ty =>
    match
      (if isStrEq ty "file_existence" || isStrEq ty "file_content" || isStrEq ty "file_size" then
        file_check fs volume_path cc
      else if isStrEq ty "dependency" then dependency_check fs volume_path cc
      else if isStrEq ty "log_content" then log_content_check c cc
      else if isStrEq ty "process_check" then process_check c cc
      else if isStrEq ty "network_usage" then network_usage_check c cc
      else .ok none) with
    | .error e => .error e
    | .ok none => .ok none
    | .ok (some data) =>
      match asStr tmpl with
      | .error e => .error e
      | .ok t =>
        match replace_placeholders t data with
        | .error e => .error e
        | .ok message => .ok (some message)

/-- One iteration of the executor's check loop (main.py lines 173-202): a
falsy, non-dict or type-less check configuration is skipped; otherwise the
try body runs and every exception is caught, contributing no flag. -/
def runCheck (fs : FS) (volume_path : String) (c : Container) (cc : JValue) : Option String :=
  if jTruthy cc = false then none
  else if isObjB cc = false then none
  else if jTruthy (objGetD cc "type" .null) = false then none
  else
    match checkTry fs volume_path c cc (checkMessage cc) with
    | .ok r => r
    | .error _ => none

/-- Model of execute_strategy (main.py lines 166-204): the strategy's name
is read (for the log line) before anything else, a strategy whose checks is
not a list yields no flags, and otherwise every check contributes at most
one rendered flag, in order. -/
def execute_strategy (fs : FS) (strategy : JValue) (volume_path : String) (c : Container) : Except String (List String) :=
  match pyGetItem strategy "name" with
  | .error e => .error e
  | .ok _ =>
    match pyGetD strategy "checks" .null with
    | .error e => .error e
    | .ok checks =>
      match checks with
      | .arr cs => .ok (cs.filterMap (runCheck fs volume_path c))
      | _ => .ok []

/-- The loader's validity test (main.py line 148): name truthy, type
truthy, checks a list. -/
def validStrategy (s : JValue) : Bool :=
  match s with
  | .obj fields =>
    jTruthy ((lookupField fields "name").getD .null) &&
    jTruthy ((lookupField fields "type").getD .null) &&
    isArrB ((lookupField fields "checks").getD .null)
  | _ => false

/-- Model of load_strategies (main.py lines 141-163) over the directory's
rule files, each given as its parse outcome (open or json.load failures are
the error case, caught per file): invalid entries are skipped, valid
parsed objects are kept unchanged, in directory order.  A non-dict parse
result raises at the first .get and is caught by the same per-file handler.
The directory-level try corresponds to an empty file list. -/
def load_strategies : List (String × Except String JValue) → List JValue
  | [] => []
  | file :: rest =>
    match file.2 with
    | .error _ => load_strategies rest
    | .ok s =>
      if validStrategy s then s :: load_strategies rest
      else load_strategies rest

/-- The full external world one sweep runs against: the volumes directory
path, the filesystem, the directory listing, the Docker runtime and the
management API's uuid-to-server-id resolution (get_server_id_from_uuid,
main.py lines 44-60, returns None both when the uuid is unknown and on any
request failure). -/
structure World where
  volumesDir : String
  fs : FS
  volumesList : List String
  container : String → Option Container
  serverId : String → Option JValue

/-- The strategy loop of check_volume (main.py lines 349-351): every
strategy's flags concatenated in order; an execute_strategy error
propagates. -/
def volumeLoop (fs : FS) (volume_path : String) (c : Container) : List JValue → Except String (List String)
  | [] => .ok []
  | s :: rest =>
    match execute_strategy fs s volume_path c with
    | .error e => .error e
    | .ok flags =>
      match volumeLoop fs volume_path c rest with
      | .error e => .error e
      | .ok more => .ok (flags ++ more)

/-- Model of check_volume (main.py lines 333-353): a missing volume
directory or unavailable container (not found, or any access error) skips
with no flags; otherwise every strategy's flags are concatenated in order.
Errors from execute_strategy propagate to the sweep's per-uuid handler. -/
def check_volume (w : World) (uuid : String) (strategies : List JValue) : Except String (List String) :=
  let volume_path := pyJoin w.volumesDir uuid
  if (w.fs.entries volume_path).isNone then .ok []
  else
    match w.container uuid with
    | none => .ok []
    | some c => volumeLoop w.fs volume_path c strategies

/-- The persistent flagged-state store (flagged.json): an insertion-ordered
mapping from container identifier to the stored JSON value, consulted by
truthiness. -/
def FlaggedState : Type := List (String × JValue)

/-- The value stored for an identifier, null when absent — the model of
flagged_containers.get(uuid). -/
def flagGetD (flagged : FlaggedState) (uuid : String) : JValue :=
  (lookupField flagged uuid).getD .null

/-- Python dict item assignment: update in place when the key exists,
append otherwise. -/
def pySetItem : List (String × JValue) → String → JValue → List (String × JValue)
  | [], k, v => [(k, v)]
  | (k0, v0) :: rest, k, v =>
    if k0 = k then (k0, v) :: rest
    else (k0, v0) :: pySetItem rest k v

/-- The externally visible actions of one sweep, tagged with the container
identifier they concern: a scan evaluation (check_volume invocation), a
suspension request, the summary and detailed notifications, and the durable
marking of the identifier. -/
inductive Event where
  | scanned : String → Event
  | suspend : String → JValue → Event
  | publicAlert : String → Option JValue → Event
  | privateAlert : String → Option JValue → List String → Event
  | marked : String → Event

/-- The identifier an event concerns. -/
def Event.uuid : Event → String
  | .scanned u => u
  | .suspend u _ => u
  | .publicAlert u _ => u
  | .privateAlert u _ _ => u
  | .marked u => u

/-- The body of the sweep's per-identifier try block (main.py lines
361-371): scan the volume; on a non-empty flag list resolve the server id,
request suspension only when the resolved id is truthy, send both alerts
(carrying the possibly-absent id), and durably mark the identifier.  A
propagated scan error is caught and the sweep continues. -/
def processUuid (w : World) (strategies : List JValue) (flagged : FlaggedState) (uuid : String) :
    FlaggedState × List Event :=
  match check_volume w uuid strategies with
  | .error _ => (flagged, [.scanned uuid])
  | .ok flags =>
    if flags.isEmpty then (flagged, [.scanned uuid])
    else
      let sid := w.serverId uuid
      let suspends : List Event :=
        match sid with
        | some s => if jTruthy s then [.suspend uuid s] else []
        | none => []
      (pySetItem flagged uuid (.bool true),
       .scanned uuid :: (suspends ++
         [.publicAlert uuid sid, .privateAlert uuid sid flags, .marked uuid]))

/-- One identifier of the sweep loop (main.py lines 357-360): an identifier
whose stored flag is truthy is skipped entirely — no scan, no external
action, no state change. -/
def scanStep (w : World) (strategies : List JValue) (flagged : FlaggedState) (uuid : String) :
    FlaggedState × List Event :=
  if jTruthy (flagGetD flagged uuid) then (flagged, [])
  else processUuid w strategies flagged uuid

/-- The sweep loop over a list of identifiers, threading the flagged state
and concatenating the event trace. -/
def scanList (w : World) (strategies : List JValue) (flagged : FlaggedState) :
    List String → FlaggedState × List Event
  | [] => (flagged, [])
  | u :: rest =>
    let step := scanStep w strategies flagged u
    let more := scanList w strategies step.1 rest
    (more.1, step.2 ++ more.2)

/-- Model of scan_all_containers (main.py lines 356-373): one sweep over the
volumes directory listing. -/
def scan_all_containers (w : World) (strategies : List JValue) (flagged : FlaggedState) :
    FlaggedState × List Event :=
  scanList w strategies flagged w.volumesList

/-- A sequence of sweeps (the scheduler's loop, main.py lines 379-386), each
against its own on-disk state and strategy set, threading the flagged
store. -/
def runSweeps (flagged : FlaggedState) : List (World × List JValue) → FlaggedState × List Event
  | [] => (flagged, [])
  | (w, strategies) :: rest =>
    let sweep := scan_all_containers w strategies flagged
    let more := runSweeps sweep.1 rest
    (more.1, sweep.2 ++ more.2)

theorem lookupField_pySetItem_ne (m : List (String × JValue)) (k u : String) (v : JValue)
    (h : k ≠ u) : lookupField (pySetItem m k v) u = lookupField m u := by
  induction m with
  | nil => simp [pySetItem, lookupField, h]
  | cons kv rest ih =>
    obtain ⟨k0, v0⟩ := kv
    simp only [pySetItem]
    by_cases h0 : k0 = k
    · subst h0
      simp only [if_pos rfl, lookupField]
      rw [if_neg (by exact fun hc => h (hc ▸ rfl)), if_neg (by exact fun hc => h (hc ▸ rfl))]
    · rw [if_neg h0]
      simp only [lookupField]
      by_cases h1 : k0 = u
      · rw [if_pos h1, if_pos h1]
      · rw [if_neg h1, if_neg h1, ih]


theorem processUuid_events (w : World) (strategies : List JValue) (flagged : FlaggedState)
    (u : String) : ∀ e ∈ (processUuid w strategies flagged u).2, Event.uuid e = u := by
  cases hcv : check_volume w u strategies with
  | error msg =>
    simp only [processUuid, hcv]
    intro e he
    simp at he
    rw [he]; rfl
  | ok flags =>
    by_cases hf : flags.isEmpty
    · simp only [processUuid, hcv, hf, if_pos]
      intro e he
      simp at he
      rw [he]; rfl
    · simp only [processUuid, hcv, hf]
      intro e he
      simp only [Bool.false_eq_true, if_false] at he
      cases hsid : w.serverId u with
      | none =>
        rw [hsid] at he
        simp at he
        rcases he with rfl | rfl | rfl | rfl <;> rfl
      | some s =>
        rw [hsid] at he
        by_cases hs : jTruthy s
        · simp [hs] at he
          rcases he with rfl | rfl | rfl | rfl | rfl <;> rfl
        · simp [hs] at he
          rcases he with rfl | rfl | rfl | rfl <;> rfl

theorem processUuid_flag_ne (w : World) (strategies : List JValue) (flagged : FlaggedState)
    (u u' : String) (h : u' ≠ u) :
    flagGetD (processUuid w strategies flagged u').1 u = flagGetD flagged u := by
  cases hcv : check_volume w u' strategies with
  | error msg => simp only [processUuid, hcv]
  | ok flags =>
    by_cases hf : flags.isEmpty
    · simp only [processUuid, hcv, hf, if_pos]
    · simp only [processUuid, hcv, hf, Bool.false_eq_true, if_false, flagGetD]
      rw [lookupField_pySetItem_ne _ _ _ _ h]

theorem scanStep_skips (w : World) (strategies : List JValue) (flagged : FlaggedState)
    (u u' : String) (h : jTruthy (flagGetD flagged u) = true) :
    flagGetD (scanStep w strategies flagged u').1 u = flagGetD flagged u ∧
    ∀ e ∈ (scanStep w strategies flagged u').2, Event.uuid e ≠ u := by
  unfold scanStep
  by_cases hg : jTruthy (flagGetD flagged u') = true
  · rw [if_pos hg]
    exact ⟨rfl, by intro e he; simp at he⟩
  · rw [if_neg hg]
    have hne : u' ≠ u := fun hc => hg (hc ▸ h)
    refine ⟨processUuid_flag_ne w strategies flagged u u' hne, ?_⟩
    intro e he
    rw [processUuid_events w strategies flagged u' e he]
    exact hne

theorem scanList_skips (w : World) (strategies : List JValue) (u : String) :
    ∀ (us : List String) (flagged : FlaggedState), jTruthy (flagGetD flagged u) = true →
    flagGetD (scanList w strategies flagged us).1 u = flagGetD flagged u ∧
    ∀ e ∈ (scanList w strategies flagged us).2, Event.uuid e ≠ u := by
  intro us
  induction us with
  | nil => intro flagged h; exact ⟨rfl, by intro e he; simp [scanList] at he⟩
  | cons u' rest ih =>
    intro flagged h
    have hstep := scanStep_skips w strategies flagged u u' h
    have hrec := ih (scanStep w strategies flagged u').1 (by rw [hstep.1]; exact h)
    refine ⟨by simp only [scanList]; rw [hrec.1, hstep.1], ?_⟩
    intro e he
    simp only [scanList, List.mem_append] at he
    rcases he with he | he
    · exact hstep.2 e he
    · exact hrec.2 e he

/-- Claim C1: an identifier whose stored flag is truthy at the start of a
sweep is excluded by scan_all_containers — no check evaluation, no
suspension request, no notification and no flagged-state change concern it
— and this persists over every sequence of subsequent sweeps against
arbitrary on-disk states and strategy sets. -/
theorem flagged_identifier_permanently_excluded
    (sweeps : List (World × List JValue)) (flagged : FlaggedState) (uuid : String)
    (h : jTruthy (flagGetD flagged uuid) = true) :
    flagGetD (runSweeps flagged sweeps).1 uuid = flagGetD flagged uuid ∧
    ∀ e ∈ (runSweeps flagged sweeps).2, Event.uuid e ≠ uuid := by
  induction sweeps generalizing flagged with
  | nil => exact ⟨rfl, by intro e he; simp [runSweeps] at he⟩
  | cons ws rest ih =>
    obtain ⟨w, strategies⟩ := ws
    have hsweep := scanList_skips w strategies uuid w.volumesList flagged h
    have hrec := ih (scan_all_containers w strategies flagged).1
      (by
        have h1 : (scan_all_containers w strategies flagged).1 =
            (scanList w strategies flagged w.volumesList).1 := rfl
        rw [h1, hsweep.1]; exact h)
    refine ⟨?_, ?_⟩
    · simp only [runSweeps]
      rw [hrec.1]
      exact hsweep.1
    · intro e he
      simp only [runSweeps, List.mem_append] at he
      rcases he with he | he
      · exact hsweep.2 e he
      · exact hrec.2 e he

theorem lookupField_pySetItem_self (m : List (String × JValue)) (k : String) (v : JValue) :
    lookupField (pySetItem m k v) k = some v := by
  induction m with
  | nil => simp [pySetItem, lookupField]
  | cons kv rest ih =>
    obtain ⟨k0, v0⟩ := kv
    simp only [pySetItem]
    by_cases h0 : k0 = k
    · rw [if_pos h0]
      simp [lookupField, h0]
    · rw [if_neg h0]
      simp only [lookupField]
      rw [if_neg h0]
      exact ih

/-- Claim C2: an unflagged identifier whose scan yields a non-empty flag
list is durably marked true even when resolving its management-system
server id fails (returns none): no suspension is requested, but both the
summary and the detailed notification are still attempted. -/
theorem marked_flagged_despite_resolution_failure
    (w : World) (strategies : List JValue) (flagged : FlaggedState) (uuid : String)
    (flags : List String)
    (h1 : jTruthy (flagGetD flagged uuid) = false)
    (h2 : check_volume w uuid strategies = .ok flags)
    (h3 : flags.isEmpty = false)
    (h4 : w.serverId uuid = none) :
    flagGetD (scanStep w strategies flagged uuid).1 uuid = .bool true ∧
    (∀ u s, Event.suspend u s ∉ (scanStep w strategies flagged uuid).2) ∧
    Event.publicAlert uuid none ∈ (scanStep w strategies flagged uuid).2 ∧
    Event.privateAlert uuid none flags ∈ (scanStep w strategies flagged uuid).2 := by
  have hstep : scanStep w strategies flagged uuid =
      (pySetItem flagged uuid (.bool true),
       [.scanned uuid, .publicAlert uuid none, .privateAlert uuid none flags, .marked uuid]) := by
    simp only [scanStep, h1, Bool.false_eq_true, if_false]
    simp only [processUuid, h2, h3, Bool.false_eq_true, if_false, h4]
    rfl
  rw [hstep]
  refine ⟨?_, ?_, ?_, ?_⟩
  · simp only [flagGetD, lookupField_pySetItem_self, Option.getD_some]
  · intro u s hmem
    simp at hmem
  · simp
  · simp

/-- A container handle whose every live call fails: file-based checks need
none of them. -/
def trivContainer : Container :=
  { logs := .error "unavailable",
    execRun := fun _ => .error "unavailable",
    stats := .error "unavailable" }

/-- A one-container world whose volume u1 holds a five-byte file f, with no
reachable management-system server id. -/
def sizeWorld : World :=
  { volumesDir := "/v",
    fs := { entries := fun p =>
              if p = "/v/u1" then some ⟨.error "IsADirectoryError", .error "IsADirectoryError", 0⟩
              else if p = "/v/u1/f" then some ⟨.ok "data!", .ok "data!", 5⟩
              else none,
            globMatches := fun _ => [],
            jparse := fun _ => .error "JSONDecodeError" },
    volumesList := ["u1"],
    container := fun u => if u = "u1" then some trivContainer else none,
    serverId := fun _ => none }

/-- A strategy with a single file_size check on f (max_size defaulting to
zero), matching any non-empty f. -/
def sizeStrategy : JValue :=
  .obj [("name", .str "big file"), ("type", .str "abuse"),
        ("checks", .arr [.obj [("type", .str "file_size"), ("path", .str "f")]])]

/-- Witness for C1 at a concrete store, sweep list and identifier. -/
theorem flagged_identifier_permanently_excluded_witness :
    flagGetD (runSweeps [("u1", .bool true)] [(sizeWorld, [sizeStrategy])]).1 "u1" =
      flagGetD [("u1", JValue.bool true)] "u1" ∧
    ∀ e ∈ (runSweeps [("u1", .bool true)] [(sizeWorld, [sizeStrategy])]).2, Event.uuid e ≠ "u1" :=
  flagged_identifier_permanently_excluded [(sizeWorld, [sizeStrategy])]
    [("u1", .bool true)] "u1" rfl

/-- Witness for C2 at a concrete world whose scan of u1 flags the file_size
check while the server-id resolution returns none. -/
theorem marked_flagged_despite_resolution_failure_witness :
    flagGetD (scanStep sizeWorld [sizeStrategy] [] "u1").1 "u1" = .bool true ∧
    (∀ u s, Event.suspend u s ∉ (scanStep sizeWorld [sizeStrategy] [] "u1").2) ∧
    Event.publicAlert "u1" none ∈ (scanStep sizeWorld [sizeStrategy] [] "u1").2 ∧
    Event.privateAlert "u1" none ["An undefined issue was detected"] ∈
      (scanStep sizeWorld [sizeStrategy] [] "u1").2 :=
  marked_flagged_despite_resolution_failure sizeWorld [sizeStrategy] [] "u1"
    ["An undefined issue was detected"] rfl (by rfl) rfl rfl

theorem execute_strategy_eq (fs : FS) (volume_path : String) (c : Container)
    (fields : List (String × JValue)) (nm : JValue)
    (hname : lookupField fields "name" = some nm) :
    execute_strategy fs (.obj fields) volume_path c =
      .ok (match (lookupField fields "checks").getD .null with
           | .arr cs => cs.filterMap (runCheck fs volume_path c)
           | _ => []) := by
  unfold execute_strategy
  simp only [pyGetItem, hname, pyGetD]
  cases (lookupField fields "checks").getD .null <;> rfl

/-- Claim C3: evaluating one check inside execute_strategy never propagates
an exception out of the strategy run — given a strategy whose name field is
present, the run returns a flag list (never an error), each check
contributing independently through runCheck; and whenever the body of a
check's try block raises, that check contributes no flag (and, by the
filterMap shape, the remaining checks are still evaluated). -/
theorem check_errors_never_escape_strategy_run (fs : FS) (volume_path : String) (c : Container)
    (fields : List (String × JValue)) (nm : JValue)
    (hname : lookupField fields "name" = some nm) :
    execute_strategy fs (.obj fields) volume_path c =
      .ok (match (lookupField fields "checks").getD .null with
           | .arr cs => cs.filterMap (runCheck fs volume_path c)
           | _ => []) ∧
    ∀ cc e, checkTry fs volume_path c cc (checkMessage cc) = .error e →
      runCheck fs volume_path c cc = none := by
  refine ⟨execute_strategy_eq fs volume_path c fields nm hname, ?_⟩
  intro cc e herr
  unfold runCheck
  by_cases h1 : jTruthy cc = false
  · rw [if_pos h1]
  · rw [if_neg h1]
    by_cases h2 : isObjB cc = false
    · rw [if_pos h2]
    · rw [if_neg h2]
      by_cases h3 : jTruthy (objGetD cc "type" .null) = false
      · rw [if_pos h3]
      · rw [if_neg h3, herr]

/-- A check configuration whose evaluation raises: a file_content check
with a numeric path (os.path.join raises TypeError). -/
def badPathCheck : JValue :=
  .obj [("type", .str "file_content"), ("path", .num (Frac.ofInt 5))]

/-- Witness for C3: a concrete strategy holding a check whose try body
raises; the strategy run still returns ok, and that check contributes no
flag. -/
theorem check_errors_never_escape_strategy_run_witness :
    execute_strategy sizeWorld.fs (.obj [("name", JValue.str "s"), ("checks", .arr [badPathCheck])])
        "/v/u1" trivContainer =
      .ok (match (lookupField [("name", JValue.str "s"), ("checks", .arr [badPathCheck])] "checks").getD .null with
           | .arr cs => cs.filterMap (runCheck sizeWorld.fs "/v/u1" trivContainer)
           | _ => []) ∧
    ∀ cc e, checkTry sizeWorld.fs "/v/u1" trivContainer cc (checkMessage cc) = .error e →
      runCheck sizeWorld.fs "/v/u1" trivContainer cc = none :=
  check_errors_never_escape_strategy_run sizeWorld.fs "/v/u1" trivContainer
    [("name", JValue.str "s"), ("checks", .arr [badPathCheck])] (JValue.str "s") rfl

/-- Whether an Except value carries a result (Python: no exception). -/
def isOkE {α : Type} : Except String α → Bool
  | .ok _ => true
  | .error _ => false

/-- The five placeholder names replace_placeholders supplies to
str.format. -/
def knownField (n : String) : Bool :=
  n == "pattern" || n == "filename" || n == "dependency" || n == "usage" || n == "processes"

/-- A template whose parse succeeds and references only the five supplied
placeholder names (bare, with no conversion or format spec). -/
def templateOk (t : String) : Bool :=
  match parseFmt t.toList with
  | .ok items => items.all (fun i => match i with
      | .lit _ => true
      | .field n => knownField n)
  | .error _ => false

theorem lookupField_evMapList_isSome (d : Evidence) (n : String) (h : knownField n = true) :
    (lookupField (evMapList d) n).isSome = true := by
  simp only [knownField, Bool.or_eq_true, beq_iff_eq] at h
  rcases h with (((h | h) | h) | h) | h <;> subst h <;> rfl

theorem renderItems_isOk (m : List (String × String)) :
    ∀ items : List Item, (∀ n, Item.field n ∈ items → (lookupField m n).isSome = true) →
    isOkE (renderItems m items) = true := by
  intro items
  induction items with
  | nil => intro h; rfl
  | cons it rest ih =>
    intro h
    have hrest := ih (fun n hn => h n (List.mem_cons_of_mem _ hn))
    cases it with
    | lit ch =>
      simp only [renderItems]
      cases hr : renderItems m rest with
      | ok s => rfl
      | error e => rw [hr] at hrest; exact absurd hrest (by simp [isOkE])
    | field n =>
      have hs := h n (List.mem_cons_self _ _)
      cases hl : lookupField m n with
      | none => rw [hl] at hs; simp at hs
      | some v =>
        simp only [renderItems, hl]
        cases hr : renderItems m rest with
        | ok s => rfl
        | error e => rw [hr] at hrest; exact absurd hrest (by simp [isOkE])

/-- Claim C4 counterexample: rendering a template that references the
placeholder foo — absent from every Evidence record — raises (Python:
KeyError), rather than substituting an empty string; so rendering is not
total over all templates. -/
theorem template_unknown_placeholder_errors :
    isOkE (replace_placeholders "\x7bfoo\x7d" ⟨none, none, none, none, none⟩) = false := rfl

/-- Claim C4 (amended): for every template whose placeholders are bare
occurrences of the five supplied names pattern, filename, dependency,
usage, processes, rendering never raises; and a placeholder whose Evidence
field is absent is substituted exactly as the empty string (empty list for
processes, zero — rendered "0.00" — for usage). -/
theorem known_placeholder_rendering_total (template : String) (data : Evidence)
    (h : templateOk template = true) :
    isOkE (replace_placeholders template data) = true ∧
    replace_placeholders template ⟨none, none, none, none, none⟩ =
      replace_placeholders template ⟨some "", some "", some "", some (Frac.ofInt 0), some []⟩ ∧
    replace_placeholders "\x7busage\x7d" ⟨none, none, none, none, none⟩ = .ok "0.00" := by
  refine ⟨?_, rfl, rfl⟩
  unfold templateOk at h
  unfold replace_placeholders
  cases hp : parseFmt template.toList with
  | error e => rw [hp] at h; simp at h
  | ok items =>
    rw [hp] at h
    refine renderItems_isOk (evMapList data) items ?_
    intro n hn
    have hall := List.all_eq_true.mp h _ hn
    exact lookupField_evMapList_isSome data n hall

/-- Witness for C4 at a concrete template and an Evidence record with
every field absent. -/
theorem known_placeholder_rendering_total_witness :
    isOkE (replace_placeholders "Found \x7bpattern\x7d in \x7bfilename\x7d"
      ⟨none, none, none, none, none⟩) = true ∧
    replace_placeholders "Found \x7bpattern\x7d in \x7bfilename\x7d" ⟨none, none, none, none, none⟩ =
      replace_placeholders "Found \x7bpattern\x7d in \x7bfilename\x7d"
        ⟨some "", some "", some "", some (Frac.ofInt 0), some []⟩ ∧
    replace_placeholders "\x7busage\x7d" ⟨none, none, none, none, none⟩ = .ok "0.00" :=
  known_placeholder_rendering_total "Found \x7bpattern\x7d in \x7bfilename\x7d"
    ⟨none, none, none, none, none⟩ rfl

theorem network_usage_check_eq (c : Container) (cc : JValue) (thr : Frac) (stats : JValue)
    (nets : List (String × JValue)) (total : Frac)
    (h1 : pyGetD cc "threshold" (.num (Frac.ofInt 0)) = .ok (.num thr))
    (h2 : c.stats = .ok stats)
    (h3 : pyGetD stats "networks" (.obj []) = .ok (.obj nets))
    (h4 : sumNets (Frac.ofInt 0) nets = .ok total) :
    network_usage_check c cc =
      .ok (if fracLt thr total then some ⟨none, none, none, some total, none⟩ else none) := by
  have hnet : netTry c (.num thr) =
      .ok (if fracLt thr total then some ⟨none, none, none, some total, none⟩ else none) := by
    simp only [netTry, h2, h3, asObj, h4, pyNum]
    cases fracLt thr total <;> rfl
  simp only [network_usage_check, h1, hnet]

/-- The stats payload of scenario C: one interface with rx 600000 and tx
500000 bytes. -/
def netScenarioStats : JValue :=
  .obj [("networks", .obj [("eth0", .obj
    [("rx_bytes", .num (Frac.ofInt 600000)), ("tx_bytes", .num (Frac.ofInt 500000))])])]

/-- A container handle reporting the scenario C stats. -/
def netScenarioContainer : Container :=
  { logs := .error "unavailable",
    execRun := fun _ => .error "unavailable",
    stats := .ok netScenarioStats }

/-- The scenario C check configuration: network_usage with threshold
1000000 bytes. -/
def netScenarioCheck : JValue :=
  .obj [("type", .str "network_usage"), ("threshold", .num (Frac.ofInt 1000000))]

/-- Claim C5: the network_usage evaluator matches exactly when the summed
received plus transmitted byte counters strictly exceed threshold (the
comparison agreeing with the real order on ℚ), returning Evidence usage
equal to that total; concretely, with threshold 1000000 and interfaces
summing rx 600000 and tx 500000 the check matches with usage 1100000 and
the rendered usage placeholder is the string "1.05". -/
theorem network_usage_threshold_semantics (c : Container) (cc : JValue) (thr : Frac)
    (stats : JValue) (nets : List (String × JValue)) (total : Frac)
    (h1 : pyGetD cc "threshold" (.num (Frac.ofInt 0)) = .ok (.num thr))
    (h2 : c.stats = .ok stats)
    (h3 : pyGetD stats "networks" (.obj []) = .ok (.obj nets))
    (h4 : sumNets (Frac.ofInt 0) nets = .ok total) :
    network_usage_check c cc =
      .ok (if fracLt thr total then some ⟨none, none, none, some total, none⟩ else none) ∧
    (fracLt thr total = true ↔ thr.toRat < total.toRat) ∧
    network_usage_check netScenarioContainer netScenarioCheck =
      .ok (some ⟨none, none, none, some (Frac.ofInt 1100000), none⟩) ∧
    (Frac.ofInt 1100000).toRat = 1100000 ∧
    replace_placeholders "\x7busage\x7d" ⟨none, none, none, some (Frac.ofInt 1100000), none⟩ =
      .ok "1.05" := by
  refine ⟨network_usage_check_eq c cc thr stats nets total h1 h2 h3 h4,
          fracLt_toRat thr total, ?_, ?_, ?_⟩
  · rfl
  · norm_num [Frac.toRat, Frac.ofInt]
  · rfl

/-- Witness for C5 at the concrete scenario C container and check. -/
theorem network_usage_threshold_semantics_witness :
    network_usage_check netScenarioContainer netScenarioCheck =
      .ok (if fracLt (Frac.ofInt 1000000) (Frac.ofInt 1100000) then
             some ⟨none, none, none, some (Frac.ofInt 1100000), none⟩ else none) ∧
    (fracLt (Frac.ofInt 1000000) (Frac.ofInt 1100000) = true ↔
      (Frac.ofInt 1000000).toRat < (Frac.ofInt 1100000).toRat) ∧
    network_usage_check netScenarioContainer netScenarioCheck =
      .ok (some ⟨none, none, none, some (Frac.ofInt 1100000), none⟩) ∧
    (Frac.ofInt 1100000).toRat = 1100000 ∧
    replace_placeholders "\x7busage\x7d" ⟨none, none, none, some (Frac.ofInt 1100000), none⟩ =
      .ok "1.05" :=
  network_usage_threshold_semantics netScenarioContainer netScenarioCheck
    (Frac.ofInt 1000000) netScenarioStats
    [("eth0", .obj [("rx_bytes", .num (Frac.ofInt 600000)), ("tx_bytes", .num (Frac.ofInt 500000))])]
    (Frac.ofInt 1100000) rfl rfl rfl rfl

/-- A rule file whose name is present but empty: name and type present,
checks a sequence. -/
def emptyNameRule : JValue :=
  .obj [("name", .str ""), ("type", .str "mining"), ("checks", .arr [])]

/-- Claim C6 counterexample: a rule whose name is present (the empty
string), whose type is present and whose checks is a sequence is
nevertheless omitted by the loader: line 148 tests truthiness of the
fields, not their presence, so the claim as stated fails on this input. -/
theorem present_but_empty_name_not_loaded :
    pyGetItem emptyNameRule "name" = .ok (.str "") ∧
    load_strategies [("bad.protect", .ok emptyNameRule)] = [] :=
  ⟨rfl, rfl⟩

/-- Claim C6 (amended): the loader returns exactly the rule definitions
whose name and type are present with truthy values and whose checks is a
sequence, each kept with identical field values; every other parse outcome
(including a failed parse) is omitted without aborting the remaining
files; and with an empty loaded set, a scan still runs and yields no
flags. -/
theorem loader_returns_truthy_valid_rules (files : List (String × Except String JValue)) :
    (∀ fname s, (fname, Except.ok s) ∈ files → validStrategy s = true →
      s ∈ load_strategies files) ∧
    (∀ s ∈ load_strategies files, validStrategy s = true) ∧
    (∀ w uuid, load_strategies files = [] →
      check_volume w uuid (load_strategies files) = .ok []) := by
  refine ⟨?_, ?_, ?_⟩
  · induction files with
    | nil => intro fname s h hv; simp at h
    | cons f rest ih =>
      intro fname s hmem hv
      obtain ⟨fn, fe⟩ := f
      rcases List.mem_cons.mp hmem with heq | hmem2
      · simp only [Prod.mk.injEq] at heq
        obtain ⟨h1, h2⟩ := heq
        subst h2
        simp only [load_strategies, hv, if_true]
        exact List.Mem.head _
      · have hs := ih fname s hmem2 hv
        cases fe with
        | error e => simpa [load_strategies] using hs
        | ok s0 =>
          by_cases hv0 : validStrategy s0
          · simp only [load_strategies, hv0, if_true]
            exact List.Mem.tail _ hs
          · simpa [load_strategies, hv0] using hs
  · induction files with
    | nil => intro s h; simp [load_strategies] at h
    | cons f rest ih =>
      intro s hmem
      obtain ⟨fn, fe⟩ := f
      cases fe with
      | error e => exact ih s (by simpa [load_strategies] using hmem)
      | ok s0 =>
        by_cases hv0 : validStrategy s0
        · rcases List.mem_cons.mp (by simpa [load_strategies, hv0] using hmem) with heq | hmem2
          · rw [heq]; exact hv0
          · exact ih s hmem2
        · exact ih s (by simpa [load_strategies, hv0] using hmem)
  · intro w uuid hempty
    rw [hempty]
    unfold check_volume
    by_cases hv : (w.fs.entries (pyJoin w.volumesDir uuid)).isNone = true
    · rw [if_pos hv]
    · rw [if_neg hv]
      cases w.container uuid with
      | none => rfl
      | some c => rfl

/-- A well-formed rule definition. -/
def goodRule : JValue :=
  .obj [("name", .str "Crypto Mining"), ("type", .str "mining"),
        ("checks", .arr [.obj [("type", .str "log_content"),
                               ("patterns", .arr [.str "stratum+tcp"])]])]

/-- Witness for C6: a concrete directory with one valid rule and one
unparsable file loads exactly the valid rule unchanged, and an empty
loaded set still scans to no flags. -/
theorem loader_returns_truthy_valid_rules_witness :
    goodRule ∈ load_strategies [("good.protect", .ok goodRule), ("bad.protect", .error "invalid json")] ∧
    (∀ s ∈ load_strategies [("good.protect", .ok goodRule), ("bad.protect", .error "invalid json")],
      validStrategy s = true) ∧
    check_volume sizeWorld "zz" (load_strategies []) = .ok [] :=
  ⟨(loader_returns_truthy_valid_rules
      [("good.protect", .ok goodRule), ("bad.protect", .error "invalid json")]).1
      "good.protect" goodRule (List.Mem.head _) rfl,
   (loader_returns_truthy_valid_rules
      [("good.protect", .ok goodRule), ("bad.protect", .error "invalid json")]).2.1,
   (loader_returns_truthy_valid_rules []).2.2 sizeWorld "zz" rfl⟩

/-- The total behaviour of the dependency pattern loops once every pattern
is a string: the first pattern having a case-insensitive substring match
among the merged dependency names yields that name. -/
def firstMatchR : List String → List (String × JValue) → Option Evidence
  | [], _ => none
  | p :: rest, merged =>
    match merged.find? (fun kv => lowerContains kv.1 p) with
    | some kv => some ⟨none, none, some kv.1, none, none⟩
    | none => firstMatchR rest merged

theorem firstMatch_map_str (merged : List (String × JValue)) :
    ∀ ps : List String, firstMatch (ps.map JValue.str) merged = .ok (firstMatchR ps merged) := by
  intro ps
  induction ps with
  | nil => rfl
  | cons p rest ih =>
    simp only [List.map_cons, firstMatch, asStr, firstMatchR]
    cases merged.find? (fun kv => lowerContains kv.1 p) with
    | some kv => rfl
    | none => exact ih

theorem firstMatchR_isSome (merged : List (String × JValue)) :
    ∀ ps : List String, (firstMatchR ps merged).isSome =
      ps.any (fun p => merged.any (fun kv => lowerContains kv.1 p)) := by
  intro ps
  induction ps with
  | nil => rfl
  | cons p rest ih =>
    simp only [firstMatchR, List.any_cons]
    cases hf : merged.find? (fun kv => lowerContains kv.1 p) with
    | some kv =>
      have hp : lowerContains kv.1 p = true := by simpa using List.find?_some hf
      have hany : merged.any (fun kv => lowerContains kv.1 p) = true :=
        List.any_eq_true.mpr ⟨kv, List.mem_of_find?_eq_some hf, hp⟩
      rw [hany]
      rfl
    | none =>
      have hnone : merged.any (fun kv => lowerContains kv.1 p) = false := by
        rw [List.any_eq_false]
        intro kv hkv
        simpa using List.find?_eq_none.mp hf kv hkv
      rw [hnone, ih]
      rfl

theorem firstMatchR_some (merged : List (String × JValue)) :
    ∀ (ps : List String) (e : Evidence), firstMatchR ps merged = some e →
      ∃ p ∈ ps, ∃ kv ∈ merged, lowerContains kv.1 p = true ∧
        e = ⟨none, none, some kv.1, none, none⟩ := by
  intro ps
  induction ps with
  | nil => intro e h; simp [firstMatchR] at h
  | cons p rest ih =>
    intro e h
    simp only [firstMatchR] at h
    cases hf : merged.find? (fun kv => lowerContains kv.1 p) with
    | some kv =>
      rw [hf] at h
      simp only [Option.some.injEq] at h
      have hp : lowerContains kv.1 p = true := by simpa using List.find?_some hf
      exact ⟨p, List.Mem.head _, kv, List.mem_of_find?_eq_some hf, hp, h.symm⟩
    | none =>
      rw [hf] at h
      obtain ⟨q, hq, kv, hkv, hlc, he⟩ := ih e h
      exact ⟨q, List.Mem.tail _ hq, kv, hkv, hlc, he⟩

theorem dependency_check_eq (fs : FS) (vp : String) (cc : JValue) (fns content : String)
    (pd depsO devO : List (String × JValue)) (ps : List String) (entry : FSEntry)
    (h1 : pyGetD cc "file" (.str "package.json") = .ok (.str fns))
    (h2 : pyGetD cc "patterns" (.arr []) = .ok (.arr (ps.map JValue.str)))
    (h3 : fs.entries (pyJoin vp fns) = some entry)
    (h4 : entry.readText = .ok content)
    (h5 : fs.jparse content = .ok (.obj pd))
    (h6 : pyGetD (.obj pd) "dependencies" (.obj []) = .ok (.obj depsO))
    (h7 : pyGetD (.obj pd) "devDependencies" (.obj []) = .ok (.obj devO)) :
    dependency_check fs vp cc = .ok (firstMatchR ps (pyUpdate depsO devO)) := by
  have hdep : depTry fs entry (.arr (ps.map JValue.str)) =
      .ok (firstMatchR ps (pyUpdate depsO devO)) := by
    simp only [depTry, h4, h5, h6, asObj, h7, pyIter]
    exact firstMatch_map_str _ ps
  simp only [dependency_check, h1, h2, asStr, h3, hdep]

/-- A package.json manifest carrying the dependency malicious-lib-v2. -/
def depManifest : JValue :=
  .obj [("dependencies", .obj [("express", .str "4.17.1"), ("malicious-lib-v2", .str "1.0.0")]),
        ("devDependencies", .obj [])]

/-- The same manifest with no name containing the pattern. -/
def depManifestClean : JValue :=
  .obj [("dependencies", .obj [("express", .str "4.17.1"), ("left-pad", .str "1.3.0")]),
        ("devDependencies", .obj [])]

/-- A volume filesystem whose package.json parses to the given manifest. -/
def depFS (pkg : JValue) : FS :=
  { entries := fun p =>
      if p = "/vol/package.json" then some ⟨.ok "MANIFEST", .error "unused", 42⟩ else none,
    globMatches := fun _ => [],
    jparse := fun s => if s = "MANIFEST" then .ok pkg else .error "JSONDecodeError" }

/-- A dependency check with pattern malicious-lib and the default file. -/
def depCheckCfg : JValue :=
  .obj [("type", .str "dependency"), ("patterns", .arr [.str "malicious-lib"])]

/-- Claim C7: the dependency evaluator matches exactly when the configured
file (default package.json) exists, parses as JSON, and some key in the
union of its dependencies and devDependencies contains one of patterns as
a case-insensitive substring, returning the matching dependency name;
concretely, pattern "malicious-lib" matches a dependency named
"malicious-lib-v2" with exactly that Evidence, and the manifest without
the substring yields no match. -/
theorem dependency_substring_semantics (fs : FS) (vp : String) (cc : JValue)
    (fns content : String) (pd depsO devO : List (String × JValue)) (ps : List String)
    (entry : FSEntry)
    (h1 : pyGetD cc "file" (.str "package.json") = .ok (.str fns))
    (h2 : pyGetD cc "patterns" (.arr []) = .ok (.arr (ps.map JValue.str)))
    (h3 : fs.entries (pyJoin vp fns) = some entry)
    (h4 : entry.readText = .ok content)
    (h5 : fs.jparse content = .ok (.obj pd))
    (h6 : pyGetD (.obj pd) "dependencies" (.obj []) = .ok (.obj depsO))
    (h7 : pyGetD (.obj pd) "devDependencies" (.obj []) = .ok (.obj devO)) :
    dependency_check fs vp cc = .ok (firstMatchR ps (pyUpdate depsO devO)) ∧
    (firstMatchR ps (pyUpdate depsO devO)).isSome =
      ps.any (fun p => (pyUpdate depsO devO).any (fun kv => lowerContains kv.1 p)) ∧
    (∀ e, firstMatchR ps (pyUpdate depsO devO) = some e →
      ∃ p ∈ ps, ∃ kv ∈ pyUpdate depsO devO, lowerContains kv.1 p = true ∧
        e = ⟨none, none, some kv.1, none, none⟩) ∧
    dependency_check (depFS depManifest) "/vol" depCheckCfg =
      .ok (some ⟨none, none, some "malicious-lib-v2", none, none⟩) ∧
    dependency_check (depFS depManifestClean) "/vol" depCheckCfg = .ok none :=
  ⟨dependency_check_eq fs vp cc fns content pd depsO devO ps entry h1 h2 h3 h4 h5 h6 h7,
   firstMatchR_isSome (pyUpdate depsO devO) ps,
   firstMatchR_some (pyUpdate depsO devO) ps,
   rfl, rfl⟩

/-- Witness for C7 at the concrete scenario B manifest. -/
theorem dependency_substring_semantics_witness :
    dependency_check (depFS depManifest) "/vol" depCheckCfg =
      .ok (firstMatchR ["malicious-lib"]
        (pyUpdate [("express", .str "4.17.1"), ("malicious-lib-v2", .str "1.0.0")] [])) ∧
    dependency_check (depFS depManifest) "/vol" depCheckCfg =
      .ok (some ⟨none, none, some "malicious-lib-v2", none, none⟩) ∧
    dependency_check (depFS depManifestClean) "/vol" depCheckCfg = .ok none := by
  have h := dependency_substring_semantics (depFS depManifest) "/vol" depCheckCfg
    "package.json" "MANIFEST"
    [("dependencies", .obj [("express", .str "4.17.1"), ("malicious-lib-v2", .str "1.0.0")]),
     ("devDependencies", .obj [])]
    [("express", .str "4.17.1"), ("malicious-lib-v2", .str "1.0.0")] []
    ["malicious-lib"] ⟨.ok "MANIFEST", .error "unused", 42⟩ rfl rfl rfl rfl rfl rfl rfl
  exact ⟨h.1, h.2.2.2.1, h.2.2.2.2⟩

theorem process_check_eq (c : Container) (cc : JValue) (cmd output : String) (thr : Frac)
    (h1 : pyGetD cc "command" .null = .ok (.str cmd))
    (h2 : pyGetD cc "cpu_threshold" (.num (Frac.ofInt 0)) = .ok (.num thr))
    (h3 : c.execRun cmd = .ok output) :
    process_check c cc =
      .ok (if (highCpuLines thr output).isEmpty then none
           else some ⟨none, none, none, none, some (highCpuLines thr output)⟩) := by
  have hproc : procTry c (.str cmd) (.num thr) =
      .ok (if (highCpuLines thr output).isEmpty then none
           else some ⟨none, none, none, none, some (highCpuLines thr output)⟩) := by
    simp only [procTry, asStr, h3, pyNum]
    cases (highCpuLines thr output).isEmpty <;> rfl
  simp only [process_check, h1, h2, hproc]

/-- A container whose ps aux output holds a header line and one process
line (with leading blanks, as ps prints right-aligned columns) at 99.5 CPU
in 0-based column 8. -/
def procScenarioContainer : Container :=
  { logs := .error "unavailable",
    stats := .error "unavailable",
    execRun := fun cmd =>
      if cmd = "ps aux" then .ok "USER PID CPU\n  root 1 0 0 0 0 0 0 99.5 python"
      else .error "unavailable" }

/-- A process_check with cpu_threshold 50. -/
def procCheckCfg : JValue :=
  .obj [("type", .str "process_check"), ("command", .str "ps aux"),
        ("cpu_threshold", .num (Frac.ofInt 50))]

/-- Claim C8 counterexample: the raw second output line carries leading
blanks, but the Evidence processes field stores the line stripped of
surrounding whitespace (line 310 appends line.strip()), so the Evidence is
not the sequence of raw lines. -/
theorem process_lines_are_stripped :
    splitChar (Char.ofNat 10) (pyStrip "USER PID CPU\n  root 1 0 0 0 0 0 0 99.5 python") =
      ["USER PID CPU", "  root 1 0 0 0 0 0 0 99.5 python"] ∧
    process_check procScenarioContainer procCheckCfg =
      .ok (some ⟨none, none, none, none, some ["root 1 0 0 0 0 0 0 99.5 python"]⟩) ∧
    (["root 1 0 0 0 0 0 0 99.5 python"] : List String) ≠
      ["  root 1 0 0 0 0 0 0 99.5 python"] :=
  ⟨rfl, rfl, by decide⟩

/-- Claim C8 (amended): the process evaluator matches exactly when at
least one output line, split on whitespace, has a value at 0-based column
index 8 parsing as a number strictly exceeding cpu_threshold; the Evidence
processes field is the sequence of all such lines stripped of surrounding
whitespace, in output order; a short line or a malformed numeric field is
treated as not matching rather than aborting the check. -/
theorem process_check_cpu_column_semantics (c : Container) (cc : JValue)
    (cmd output : String) (thr : Frac)
    (h1 : pyGetD cc "command" .null = .ok (.str cmd))
    (h2 : pyGetD cc "cpu_threshold" (.num (Frac.ofInt 0)) = .ok (.num thr))
    (h3 : c.execRun cmd = .ok output) :
    process_check c cc =
      .ok (if (highCpuLines thr output).isEmpty then none
           else some ⟨none, none, none, none, some (highCpuLines thr output)⟩) ∧
    highCpuLines thr output =
      (splitChar (Char.ofNat 10) (pyStrip output)).filterMap (matchingLine thr) ∧
    (∀ line s, matchingLine thr line = some s →
      s = pyStrip line ∧
      (pyWhitespaceSplit (pyStrip line)).length > 8 ∧
      ∃ cpu, pyFloat ((pyWhitespaceSplit (pyStrip line)).getD 8 "") = some cpu ∧
        fracLt thr cpu = true ∧ thr.toRat < cpu.toRat) ∧
    (∀ line, ¬ (pyWhitespaceSplit (pyStrip line)).length > 8 →
      matchingLine thr line = none) ∧
    (∀ line, pyFloat ((pyWhitespaceSplit (pyStrip line)).getD 8 "") = none →
      matchingLine thr line = none) := by
  refine ⟨process_check_eq c cc cmd output thr h1 h2 h3, rfl, ?_, ?_, ?_⟩
  · intro line s h
    simp only [matchingLine] at h
    by_cases hl : (pyWhitespaceSplit (pyStrip line)).length > 8
    · rw [if_pos hl] at h
      cases hp : pyFloat ((pyWhitespaceSplit (pyStrip line)).getD 8 "") with
      | none =>
        rw [hp] at h
        have hn : (none : Option String) = some s := h
        exact absurd hn (by simp)
      | some cpu =>
        rw [hp] at h
        have hi : (if fracLt thr cpu = true then some (pyStrip line) else none) = some s := h
        by_cases hc : fracLt thr cpu = true
        · rw [if_pos hc] at hi
          simp only [Option.some.injEq] at hi
          exact ⟨hi.symm, hl, cpu, rfl, hc, (fracLt_toRat thr cpu).mp hc⟩
        · rw [if_neg hc] at hi
          exact absurd hi (by simp)
    · rw [if_neg hl] at h
      exact absurd h (by simp)
  · intro line hl
    simp only [matchingLine]
    rw [if_neg hl]
  · intro line hp
    simp only [matchingLine]
    by_cases hl : (pyWhitespaceSplit (pyStrip line)).length > 8
    · rw [if_pos hl, hp]
    · rw [if_neg hl]

/-- Witness for C8 at the concrete ps aux scenario. -/
theorem process_check_cpu_column_semantics_witness :
    process_check procScenarioContainer procCheckCfg =
      .ok (if (highCpuLines (Frac.ofInt 50) "USER PID CPU\n  root 1 0 0 0 0 0 0 99.5 python").isEmpty
           then none
           else some ⟨none, none, none, none,
             some (highCpuLines (Frac.ofInt 50) "USER PID CPU\n  root 1 0 0 0 0 0 0 99.5 python")⟩) ∧
    (∀ line, ¬ (pyWhitespaceSplit (pyStrip line)).length > 8 →
      matchingLine (Frac.ofInt 50) line = none) := by
  have h := process_check_cpu_column_semantics procScenarioContainer procCheckCfg
    "ps aux" "USER PID CPU\n  root 1 0 0 0 0 0 0 99.5 python" (Frac.ofInt 50) rfl rfl rfl
  exact ⟨h.1, h.2.2.2.1⟩

/-- The closed set of check kinds the dispatcher recognises (main.py lines
182-191). -/
def sevenKinds : List String :=
  ["file_existence", "file_content", "file_size", "dependency", "log_content",
   "process_check", "network_usage"]

/-- The declared kind of a check configuration: the string under its type
key, none when the configuration is not a dict, has no type key, or holds
a non-string there. -/
def checkKind (cc : JValue) : Option String :=
  match cc with
  | .obj fields =>
    match lookupField fields "type" with
    | some (.str s) => some s
    | _ => none
  | _ => none

theorem checkTry_unknown (fs : FS) (vp : String) (c : Container)
    (fields : List (String × JValue)) (tmpl v : JValue)
    (hl : lookupField fields "type" = some v)
    (hv : ∀ k ∈ sevenKinds, isStrEq v k = false) :
    checkTry fs vp c (.obj fields) tmpl = .ok none := by
  have h1 := hv "file_existence" (by simp [sevenKinds])
  have h2 := hv "file_content" (by simp [sevenKinds])
  have h3 := hv "file_size" (by simp [sevenKinds])
  have h4 := hv "dependency" (by simp [sevenKinds])
  have h5 := hv "log_content" (by simp [sevenKinds])
  have h6 := hv "process_check" (by simp [sevenKinds])
  have h7 := hv "network_usage" (by simp [sevenKinds])
  simp only [checkTry, pyGetItem, hl, h1, h2, h3, h4, h5, h6, h7, Bool.or_self,
             Bool.false_eq_true, if_false]

theorem runCheck_unknown_none (fs : FS) (vp : String) (c : Container) (bad : JValue)
    (hbad : ∀ s, checkKind bad = some s → s ∉ sevenKinds) :
    runCheck fs vp c bad = none := by
  unfold runCheck
  by_cases hg1 : jTruthy bad = false
  · rw [if_pos hg1]
  · rw [if_neg hg1]
    by_cases hg2 : isObjB bad = false
    · rw [if_pos hg2]
    · rw [if_neg hg2]
      cases bad with
      | obj fields =>
        by_cases hg3 : jTruthy (objGetD (.obj fields) "type" .null) = false
        · rw [if_pos hg3]
        · rw [if_neg hg3]
          cases hlv : lookupField fields "type" with
          | none =>
            exfalso
            exact hg3 (by simp [objGetD, hlv, jTruthy])
          | some v =>
            have hv : ∀ k ∈ sevenKinds, isStrEq v k = false := by
              cases v with
              | str s =>
                intro k hk
                have hs := hbad s (by simp [checkKind, hlv])
                simp only [isStrEq, decide_eq_false_iff_not]
                intro heq
                exact hs (heq ▸ hk)
              | null => intro k hk; rfl
              | bool b => intro k hk; rfl
              | num q => intro k hk; rfl
              | arr l => intro k hk; rfl
              | obj o => intro k hk; rfl
            rw [checkTry_unknown fs vp c fields _ v hlv hv]
      | null => simp [isObjB] at hg2
      | bool b => simp [isObjB] at hg2
      | num q => simp [isObjB] at hg2
      | str s => simp [isObjB] at hg2
      | arr l => simp [isObjB] at hg2

/-- Claim C9: a check configuration whose kind is outside the closed set of
seven, or that lacks a kind entirely, contributes no Evidence and no Flag,
and the remaining checks of the strategy are still evaluated: the run with
the bad check present equals the run over the other checks alone. -/
theorem unknown_check_kind_skipped (fs : FS) (vp : String) (c : Container)
    (fields : List (String × JValue)) (nm : JValue) (pre post : List JValue) (bad : JValue)
    (hname : lookupField fields "name" = some nm)
    (hchecks : (lookupField fields "checks").getD .null = .arr (pre ++ bad :: post))
    (hbad : ∀ s, checkKind bad = some s → s ∉ sevenKinds) :
    runCheck fs vp c bad = none ∧
    execute_strategy fs (.obj fields) vp c =
      .ok (pre.filterMap (runCheck fs vp c) ++ post.filterMap (runCheck fs vp c)) := by
  have hb := runCheck_unknown_none fs vp c bad hbad
  refine ⟨hb, ?_⟩
  rw [execute_strategy_eq fs vp c fields nm hname, hchecks]
  simp [List.filterMap_append, List.filterMap_cons, hb]

/-- A check configuration with an unrecognised kind. -/
def unknownCheck : JValue := .obj [("type", .str "quantum_check")]

/-- Witness for C9: a concrete strategy holding only the unrecognised
check runs to an empty flag list, the bad check contributing nothing. -/
theorem unknown_check_kind_skipped_witness :
    runCheck sizeWorld.fs "/v/u1" trivContainer unknownCheck = none ∧
    execute_strategy sizeWorld.fs
        (.obj [("name", JValue.str "s"), ("checks", .arr [unknownCheck])]) "/v/u1" trivContainer =
      .ok (List.filterMap (runCheck sizeWorld.fs "/v/u1" trivContainer) [] ++
           List.filterMap (runCheck sizeWorld.fs "/v/u1" trivContainer) []) :=
  unknown_check_kind_skipped sizeWorld.fs "/v/u1" trivContainer
    [("name", JValue.str "s"), ("checks", .arr [unknownCheck])] (JValue.str "s")
    [] [] unknownCheck rfl rfl
    (by
      intro s hs
      have he : (some "quantum_check" : Option String) = some s := hs
      cases he
      decide)

theorem file_size_check_eq (fs : FS) (tp : String) (cc : JValue) (m : Frac) (entry : FSEntry)
    (h1 : pyGetD cc "max_size" (.num (Frac.ofInt 0)) = .ok (.num m))
    (h2 : fs.entries tp = some entry) :
    file_size_check fs tp cc =
      .ok (if fracLt m (Frac.ofNat entry.size) then
             some ⟨none, some (basename tp), none, none, none⟩ else none) := by
  simp only [file_size_check, h1, h2, pyNum]
  cases fracLt m (Frac.ofNat entry.size) <;> rfl

/-- Claim C10: a numeric limit field absent from a check configuration
defaults to zero — a file_size check without max_size matches exactly the
existing files of positive byte size, a process_check without
cpu_threshold matches exactly the output lines whose column-8 value is
positive, and a network_usage check without threshold matches exactly when
the summed byte counters are positive (fracLt against Frac.ofInt 0 being
positivity of the denoted number). -/
theorem missing_numeric_limits_default_zero :
    (∀ (fs : FS) (tp : String) (fields : List (String × JValue)) (entry : FSEntry),
      lookupField fields "max_size" = none → fs.entries tp = some entry →
      file_size_check fs tp (.obj fields) =
        .ok (if fracLt (Frac.ofInt 0) (Frac.ofNat entry.size) then
               some ⟨none, some (basename tp), none, none, none⟩ else none)) ∧
    (∀ (c : Container) (fields : List (String × JValue)) (cmd output : String),
      lookupField fields "cpu_threshold" = none →
      lookupField fields "command" = some (.str cmd) →
      c.execRun cmd = .ok output →
      process_check c (.obj fields) =
        .ok (if (highCpuLines (Frac.ofInt 0) output).isEmpty then none
             else some ⟨none, none, none, none, some (highCpuLines (Frac.ofInt 0) output)⟩)) ∧
    (∀ (c : Container) (fields : List (String × JValue)) (stats : JValue)
       (nets : List (String × JValue)) (total : Frac),
      lookupField fields "threshold" = none →
      c.stats = .ok stats →
      pyGetD stats "networks" (.obj []) = .ok (.obj nets) →
      sumNets (Frac.ofInt 0) nets = .ok total →
      network_usage_check c (.obj fields) =
        .ok (if fracLt (Frac.ofInt 0) total then some ⟨none, none, none, some total, none⟩
             else none)) ∧
    (∀ n : ℕ, fracLt (Frac.ofInt 0) (Frac.ofNat n) = true ↔ 0 < n) := by
  refine ⟨?_, ?_, ?_, ?_⟩
  · intro fs tp fields entry hmax hent
    exact file_size_check_eq fs tp (.obj fields) (Frac.ofInt 0) entry
      (by simp [pyGetD, hmax]) hent
  · intro c fields cmd output hthr hcmd hexec
    exact process_check_eq c (.obj fields) cmd output (Frac.ofInt 0)
      (by simp [pyGetD, hcmd]) (by simp [pyGetD, hthr]) hexec
  · intro c fields stats nets total hthr hstats hnets hsum
    exact network_usage_check_eq c (.obj fields) (Frac.ofInt 0) stats nets total
      (by simp [pyGetD, hthr]) hstats hnets hsum
  · intro n
    simp only [fracLt, Frac.ofInt, Frac.ofNat, decide_eq_true_iff]
    constructor
    · intro h
      have : (0 : ℤ) < (n : ℤ) := by simpa using h
      exact_mod_cast this
    · intro h
      have : (0 : ℤ) < (n : ℤ) := by exact_mod_cast h
      simpa using this

/-- Witness for C10: concrete instances of all three defaults — the
five-byte file f without max_size, the ps aux scenario without
cpu_threshold, and the stats scenario without threshold. -/
theorem missing_numeric_limits_default_zero_witness :
    file_size_check sizeWorld.fs "/v/u1/f" (.obj [("type", JValue.str "file_size"), ("path", JValue.str "f")]) =
      .ok (if fracLt (Frac.ofInt 0) (Frac.ofNat 5) then
             some ⟨none, some (basename "/v/u1/f"), none, none, none⟩ else none) ∧
    process_check procScenarioContainer
        (.obj [("type", JValue.str "process_check"), ("command", JValue.str "ps aux")]) =
      .ok (if (highCpuLines (Frac.ofInt 0) "USER PID CPU\n  root 1 0 0 0 0 0 0 99.5 python").isEmpty
           then none
           else some ⟨none, none, none, none,
             some (highCpuLines (Frac.ofInt 0) "USER PID CPU\n  root 1 0 0 0 0 0 0 99.5 python")⟩) ∧
    network_usage_check netScenarioContainer (.obj [("type", JValue.str "network_usage")]) =
      .ok (if fracLt (Frac.ofInt 0) (Frac.ofInt 1100000) then
             some ⟨none, none, none, some (Frac.ofInt 1100000), none⟩ else none) ∧
    (fracLt (Frac.ofInt 0) (Frac.ofNat 5) = true ↔ 0 < 5) :=
  ⟨missing_numeric_limits_default_zero.1 sizeWorld.fs "/v/u1/f"
     [("type", JValue.str "file_size"), ("path", JValue.str "f")] ⟨.ok "data!", .ok "data!", 5⟩ rfl rfl,
   missing_numeric_limits_default_zero.2.1 procScenarioContainer
     [("type", JValue.str "process_check"), ("command", JValue.str "ps aux")]
     "ps aux" "USER PID CPU\n  root 1 0 0 0 0 0 0 99.5 python" rfl rfl rfl,
   missing_numeric_limits_default_zero.2.2.1 netScenarioContainer
     [("type", JValue.str "network_usage")] netScenarioStats
     [("eth0", .obj [("rx_bytes", .num (Frac.ofInt 600000)), ("tx_bytes", .num (Frac.ofInt 500000))])]
     (Frac.ofInt 1100000) rfl rfl rfl rfl,
   missing_numeric_limits_default_zero.2.2.2 5⟩
